import Mathlib

/-!
# atom/browser/native_window.h

A shallow embedding of the parts of `atom::NativeWindow` whose bodies are
given in the header: the `DialogScope` guard, the inline accessors
`IsClosed`, `has_frame`, `set_has_dialog_attached`, the observer
registration pair `AddObserver` / `RemoveObserver`, and the declaration
order of the data members.

Windows live in a memory indexed by addresses; a `NativeWindow*` is an
`Option Ptr` with `none` for `NULL`.  A member function is a function on the
state of the object it is called on; calling it through a pointer rewrites
the memory cell of that pointer.
-/

namespace atom

/-- An address.  Non-null pointers to windows and to observers are addresses. -/
abbrev Ptr := Nat

/-- What `native_window.h` uses from headers that are not part of the sources:
`base::ObserverList<NativeWindowObserver>` (`base/observer_list.h`) with its
two mutators and the sequence it iterates over, and the types of the data
members that no inline body of the header reads or writes. -/
structure Ext where
  /-- The type `ObserverList<NativeWindowObserver>`. -/
  ObserverList : Type
  /-- The member `ObserverList::AddObserver`. -/
  AddObserver : ObserverList → Ptr → ObserverList
  /-- The member `ObserverList::RemoveObserver`. -/
  RemoveObserver : ObserverList → Ptr → ObserverList
  /-- The observers a `FOR_EACH_OBSERVER` visits, in order. -/
  registered : ObserverList → List Ptr
  /-- The members `icon_`, `registrar_`, `window_unresposive_closure_`,
  `web_preferences_`, `preload_script_`, `zoom_factor_`, `weak_factory_`,
  `web_dialog_helper_`, `dialog_manager_`, `inspectable_web_contents_`,
  `saved_files_`, taken together. -/
  Other : Type

/-- The data members of `NativeWindow` (native_window.h:294-364). -/
structure NativeWindow (E : Ext) where
  /-- Whether window has standard frame. -/
  has_frame_ : Bool
  /-- Whether window is transparent. -/
  transparent_ : Bool
  /-- Whether window can be resized larger than screen. -/
  enable_larger_than_screen_ : Bool
  /-- Observers of this window. -/
  observers_ : E.ObserverList
  /-- The windows has been closed. -/
  is_closed_ : Bool
  /-- Whether node integration is enabled. -/
  node_integration_ : Bool
  /-- There is a dialog that has been attached to window. -/
  has_dialog_attached_ : Bool
  /-- The members of types the header only names. -/
  other_ : E.Other

namespace NativeWindow

variable {E : Ext}

/-- Source: `virtual bool IsClosed() const { return is_closed_; }`
(native_window.h:150). -/
def IsClosed (w : NativeWindow E) : Bool := w.is_closed_

/-- Source: `bool has_frame() const { return has_frame_; }`
(native_window.h:217). -/
def has_frame (w : NativeWindow E) : Bool := w.has_frame_

/-- Source: `void set_has_dialog_attached(bool has_dialog_attached)
{ has_dialog_attached_ = has_dialog_attached; }` (native_window.h:219-221). -/
def set_has_dialog_attached (w : NativeWindow E) (has_dialog_attached : Bool) :
    NativeWindow E :=
  { w with has_dialog_attached_ := has_dialog_attached }

/-- Source: `void AddObserver(NativeWindowObserver* obs)
{ observers_.AddObserver(obs); }` (native_window.h:209-211). -/
def AddObserver (w : NativeWindow E) (obs : Ptr) : NativeWindow E :=
  { w with observers_ := E.AddObserver w.observers_ obs }

/-- Source: `void RemoveObserver(NativeWindowObserver* obs)
{ observers_.RemoveObserver(obs); }` (native_window.h:213-215). -/
def RemoveObserver (w : NativeWindow E) (obs : Ptr) : NativeWindow E :=
  { w with observers_ := E.RemoveObserver w.observers_ obs }

end NativeWindow

/-- Modelled from the spec: the observer interface `NativeWindowObserver`
(`atom/browser/native_window_observer.h`) is not among the sources.  Spec 4.2
lists the lifecycle events the bus delivers: closed, blur, focus, maximize,
unmaximize, minimize, restore, enter-full-screen, leave-full-screen,
unresponsive. -/
inductive Event where
  | closed
  | blur
  | focus
  | maximize
  | unmaximize
  | minimize
  | restore
  | enterFullScreen
  | leaveFullScreen
  | unresponsive
  deriving DecidableEq, Repr

/-- The windows of the program, by address. -/
abbrev Mem (E : Ext) := Ptr → NativeWindow E

/-- The program state: the windows, and the observer callbacks invoked so
far (observer address and event, oldest first). -/
structure World (E : Ext) where
  mem : Mem E
  log : List (Ptr × Event)

namespace World

variable {E : Ext}

/-- The call `window->f(...)` of a member function that rewrites the object:
the cell at `window` is replaced by the new object state, nothing else is. -/
def call (W : World E) (window : Ptr) (f : NativeWindow E → NativeWindow E) :
    World E :=
  { W with mem := Function.update W.mem window (f (W.mem window)) }

end World

/-- Source: `class DialogScope` (native_window.h:64-81); its one data member
is `NativeWindow* window_`. -/
structure DialogScope where
  window_ : Option Ptr
  deriving DecidableEq, Repr

namespace DialogScope

variable {E : Ext}

/-- Source: the constructor (native_window.h:66-70)
`explicit DialogScope(NativeWindow* window) : window_(window) {
   if (window_ != NULL) window_->set_has_dialog_attached(true); }`.
Returns the constructed guard and the program state after the body. -/
def ctor (window : Option Ptr) (W : World E) : DialogScope × World E :=
  let self : DialogScope := { window_ := window }
  match self.window_ with
  | some p => (self, W.call p (fun w => w.set_has_dialog_attached true))
  | none => (self, W)

/-- Source: the destructor (native_window.h:72-75)
`~DialogScope() { if (window_ != NULL)
   window_->set_has_dialog_attached(false); }`. -/
def dtor (self : DialogScope) (W : World E) : World E :=
  match self.window_ with
  | some p => W.call p (fun w => w.set_has_dialog_attached false)
  | none => W

end DialogScope

/-- The operations on windows whose bodies the header defines. -/
inductive Op where
  | set_has_dialog_attached (window : Ptr) (has_dialog_attached : Bool)
  | DialogScope_ctor (window : Option Ptr)
  | DialogScope_dtor (guard : DialogScope)
  | AddObserver (window : Ptr) (obs : Ptr)
  | RemoveObserver (window : Ptr) (obs : Ptr)
  | IsClosed (window : Ptr)
  | has_frame (window : Ptr)
  deriving DecidableEq, Repr

namespace Op

variable {E : Ext}

/-- The program state after one operation.  `IsClosed` and `has_frame` are
`const` member functions: they return a value and write nothing. -/
def exec (op : Op) (W : World E) : World E :=
  match op with
  | set_has_dialog_attached p v => W.call p (fun w => w.set_has_dialog_attached v)
  | DialogScope_ctor window => (DialogScope.ctor window W).2
  | DialogScope_dtor guard => guard.dtor W
  | AddObserver p obs => W.call p (fun w => w.AddObserver obs)
  | RemoveObserver p obs => W.call p (fun w => w.RemoveObserver obs)
  | IsClosed _ => W
  | has_frame _ => W

/-- The program state after a sequence of operations, first to last. -/
def run (ops : List Op) (W : World E) : World E :=
  ops.foldl (fun acc op => op.exec acc) W

/-- Whether the operation is one of the two observer-registration calls. -/
def isObserverMutator : Op → Bool
  | AddObserver _ _ => true
  | RemoveObserver _ _ => true
  | _ => false

/-- Whether the operation is one of the mutators the header defines: the
flag setter, the guard's constructor and destructor, and the two
observer-registration calls. -/
def isMutator : Op → Bool
  | IsClosed _ => false
  | has_frame _ => false
  | _ => true

end Op

/-- Modelled from the spec: `NativeWindow::NotifyWindowClosed` is declared at
native_window.h:199 and its body (`native_window.cc`) is not among the
sources.  Spec 4.2: the call is "guarded by `isClosed_` already being true",
so a call on a closed window does nothing; spec 4.1: the window is marked
closed when the platform-level close "calls back into `NotifyWindowClosed`";
spec 4.2: the event goes "to every currently registered observer, in
registration order". -/
def NotifyWindowClosed {E : Ext} (window : Ptr) (W : World E) : World E :=
  if (W.mem window).is_closed_ then W
  else
    { mem := Function.update W.mem window { W.mem window with is_closed_ := true }
      log := W.log ++
        (E.registered (W.mem window).observers_).map (fun obs => (obs, Event.closed)) }

/-- The callbacks invoked between an earlier and a later program state: what
the later log holds beyond the length of the earlier one. -/
def delivered {E : Ext} (before after : World E) : List (Ptr × Event) :=
  after.log.drop before.log.length

/-- The non-static data members of `NativeWindow`, by name. -/
inductive Member where
  | has_frame_
  | transparent_
  | enable_larger_than_screen_
  | icon_
  | registrar_
  | observers_
  | is_closed_
  | node_integration_
  | has_dialog_attached_
  | window_unresposive_closure_
  | web_preferences_
  | preload_script_
  | zoom_factor_
  | weak_factory_
  | web_dialog_helper_
  | dialog_manager_
  | inspectable_web_contents_
  | saved_files_
  deriving DecidableEq, Repr

/-- The data members in the order the class declares them
(native_window.h:295-364). -/
def declarationOrder : List Member :=
  [ .has_frame_, .transparent_, .enable_larger_than_screen_, .icon_,
    .registrar_, .observers_, .is_closed_, .node_integration_,
    .has_dialog_attached_, .window_unresposive_closure_, .web_preferences_,
    .preload_script_, .zoom_factor_, .weak_factory_, .web_dialog_helper_,
    .dialog_manager_, .inspectable_web_contents_, .saved_files_ ]

/-- The order in which the destructor of `NativeWindow` destroys the data
members: the reverse of the order of declaration. -/
def destructionOrder : List Member := declarationOrder.reverse

/-- The members still alive after `k` of them have been destroyed. -/
def aliveAfter (k : Nat) : List Member := destructionOrder.drop k

/-- One event in the life of the guards on a window: the guard with the
given identity is constructed, or it is destroyed. -/
inductive ScopeAct where
  | enter (id : Nat)
  | exit (id : Nat)
  deriving DecidableEq, Repr

/-- The program state together with the guard objects that are alive. -/
structure Scopes (E : Ext) where
  world : World E
  live : Nat → Option DialogScope

/-- One guard event on `window`.  Constructing a guard whose identity is
alive, or destroying one that is not, is no event of a program: `none`. -/
def ScopeAct.step {E : Ext} (window : Ptr) (a : ScopeAct) (s : Scopes E) :
    Option (Scopes E) :=
  match a with
  | .enter i =>
    match s.live i with
    | some _ => none
    | none =>
      let r := DialogScope.ctor (some window) s.world
      some { world := r.2, live := Function.update s.live i (some r.1) }
  | .exit i =>
    match s.live i with
    | none => none
    | some g => some { world := g.dtor s.world, live := Function.update s.live i none }

/-- A sequence of guard events on `window`, first to last. -/
def runScopes {E : Ext} (window : Ptr) : List ScopeAct → Scopes E → Option (Scopes E)
  | [], s => some s
  | a :: rest, s => (a.step window s).bind (runScopes window rest)

/-- Modelled from the spec: `base::ObserverList` (`base/observer_list.h`) is
not among the sources.  Spec 4.2 has observers notified "in registration
order" and `AddObserver` / `RemoveObserver` as the only mutators; this
instance keeps the registered addresses in a list, registers at the end an
address that is not yet there, and removes an address by erasing it.  It
serves to evaluate the definitions at concrete inputs. -/
def listExt : Ext where
  ObserverList := List Ptr
  AddObserver l obs := if obs ∈ l then l else l ++ [obs]
  RemoveObserver l obs := l.erase obs
  registered l := l
  Other := Unit

/-- A framed, open window with no dialog attached and the given observers. -/
def openWindow (observers : List Ptr) : NativeWindow listExt :=
  { has_frame_ := true, transparent_ := false, enable_larger_than_screen_ := false,
    observers_ := observers, is_closed_ := false, node_integration_ := true,
    has_dialog_attached_ := false, other_ := () }

/-- A program whose windows are all open, observed by 7 and 9, with no
callback invoked yet. -/
def openWorld : World listExt :=
  { mem := fun _ => openWindow [7, 9], log := [] }

/-- The program `openWorld` with every window closed. -/
def closedWorld : World listExt :=
  { mem := fun _ => { openWindow [7, 9] with is_closed_ := true }, log := [] }

/-! ## Helper lemmas -/

section Helpers

variable {E : Ext}

theorem World.eq_of_fields (W V : World E) (hm : W.mem = V.mem) (hl : W.log = V.log) :
    W = V := by
  cases W; cases V; simp_all

theorem World.call_mem_same (W : World E) (p : Ptr) (f : NativeWindow E → NativeWindow E) :
    (W.call p f).mem p = f (W.mem p) := by
  simp [World.call]

theorem World.call_mem_other (W : World E) (p q : Ptr) (f : NativeWindow E → NativeWindow E)
    (h : q ≠ p) : (W.call p f).mem q = W.mem q := by
  simp [World.call, Function.update, h]

theorem World.call_log (W : World E) (p : Ptr) (f : NativeWindow E → NativeWindow E) :
    (W.call p f).log = W.log := rfl

/-- A call of a member function that keeps a field keeps it in every window. -/
theorem World.call_field {α : Type} (field : NativeWindow E → α) (W : World E) (p q : Ptr)
    (f : NativeWindow E → NativeWindow E) (hf : ∀ w, field (f w) = field w) :
    field ((W.call p f).mem q) = field (W.mem q) := by
  by_cases h : q = p
  · subst h; rw [World.call_mem_same, hf]
  · rw [World.call_mem_other W p q f h]

theorem DialogScope.ctor_some (p : Ptr) (W : World E) :
    DialogScope.ctor (some p) W
      = ({ window_ := some p }, W.call p (fun w => w.set_has_dialog_attached true)) := rfl

theorem DialogScope.ctor_none (W : World E) :
    DialogScope.ctor none W = ({ window_ := none }, W) := rfl

theorem DialogScope.dtor_some (p : Ptr) (W : World E) :
    DialogScope.dtor { window_ := some p } W
      = W.call p (fun w => w.set_has_dialog_attached false) := rfl

/-- Every operation of the header leaves the callback log as it was. -/
theorem Op.exec_log (op : Op) (W : World E) : (op.exec W).log = W.log := by
  cases op with
  | DialogScope_ctor window => cases window <;> rfl
  | DialogScope_dtor guard => obtain ⟨_ | p⟩ := guard <;> rfl
  | _ => rfl

/-- A field that the flag setter and the two registration calls keep is kept
by every operation of the header, in every window. -/
theorem Op.exec_field {α : Type} (field : NativeWindow E → α)
    (hset : ∀ (w : NativeWindow E) v, field (w.set_has_dialog_attached v) = field w)
    (hadd : ∀ (w : NativeWindow E) obs, field (w.AddObserver obs) = field w)
    (hrem : ∀ (w : NativeWindow E) obs, field (w.RemoveObserver obs) = field w)
    (op : Op) (W : World E) (q : Ptr) :
    field ((op.exec W).mem q) = field (W.mem q) := by
  cases op with
  | set_has_dialog_attached p v =>
    exact World.call_field field W p q (fun w => w.set_has_dialog_attached v)
      (fun w => hset w v)
  | DialogScope_ctor window =>
    cases window with
    | none => rfl
    | some p => exact World.call_field field W p q _ (fun w => hset w true)
  | DialogScope_dtor guard =>
    obtain ⟨_ | p⟩ := guard
    · rfl
    · exact World.call_field field W p q _ (fun w => hset w false)
  | AddObserver p obs => exact World.call_field field W p q _ (fun w => hadd w obs)
  | RemoveObserver p obs => exact World.call_field field W p q _ (fun w => hrem w obs)
  | IsClosed _ => rfl
  | has_frame _ => rfl

theorem Op.exec_is_closed (op : Op) (W : World E) (q : Ptr) :
    ((op.exec W).mem q).is_closed_ = (W.mem q).is_closed_ :=
  Op.exec_field (fun w => w.is_closed_) (fun _ _ => rfl) (fun _ _ => rfl) (fun _ _ => rfl)
    op W q

theorem Op.run_nil (W : World E) : Op.run [] W = W := rfl

theorem Op.run_cons (op : Op) (ops : List Op) (W : World E) :
    Op.run (op :: ops) W = Op.run ops (op.exec W) := rfl

theorem runScopes_append (p : Ptr) (xs ys : List ScopeAct) (s : Scopes E) :
    runScopes p (xs ++ ys) s = (runScopes p xs s).bind (runScopes p ys) := by
  induction xs generalizing s with
  | nil => rfl
  | cons a rest ih =>
    simp only [List.cons_append, runScopes]
    cases h : a.step p s with
    | none => rfl
    | some t => simp [ih]

/-- Guards constructed on `p` stay the only guards alive. -/
theorem ScopeAct.step_live (p : Ptr) (a : ScopeAct) (s t : Scopes E)
    (hs : ∀ i g, s.live i = some g → g.window_ = some p)
    (h : a.step p s = some t) :
    ∀ i g, t.live i = some g → g.window_ = some p := by
  intro i g hg
  cases a with
  | enter j =>
    simp only [ScopeAct.step] at h
    cases hj : s.live j with
    | some g0 => rw [hj] at h; cases h
    | none =>
      rw [hj] at h
      simp only [Option.some.injEq] at h
      subst h
      by_cases hij : i = j
      · subst hij
        simp only [Function.update_same, Option.some.injEq] at hg
        rw [← hg]; rfl
      · simp only [Function.update_noteq hij] at hg
        exact hs i g hg
  | exit j =>
    simp only [ScopeAct.step] at h
    cases hj : s.live j with
    | none => rw [hj] at h; cases h
    | some g0 =>
      rw [hj] at h
      simp only [Option.some.injEq] at h
      subst h
      by_cases hij : i = j
      · subst hij
        simp at hg
      · simp only [Function.update_noteq hij] at hg
        exact hs i g hg

theorem runScopes_live (p : Ptr) (tr : List ScopeAct) (s t : Scopes E)
    (hs : ∀ i g, s.live i = some g → g.window_ = some p)
    (h : runScopes p tr s = some t) :
    ∀ i g, t.live i = some g → g.window_ = some p := by
  induction tr generalizing s with
  | nil =>
    simp only [runScopes, Option.some.injEq] at h
    subst h; exact hs
  | cons a rest ih =>
    simp only [runScopes] at h
    cases ha : a.step p s with
    | none => rw [ha] at h; cases h
    | some m =>
      rw [ha] at h
      exact ih m (ScopeAct.step_live p a s m hs ha) h

end Helpers

/-! ## The dialog-attachment guard -/

section Claims

variable {E : Ext}

/-- C1, as stated, fails.  On window 0 of `openWorld`, guard `a` is entered,
then guard `b`, then `a` exits while `b` is still alive: the claim wants the
flag true after both entries and after the exit of `a`, and false after the
exit of `b`; the flag is already false after the exit of `a`. -/
theorem dialogScope_overlap_counterexample :
    ¬ (((DialogScope.ctor (some 0) openWorld).2.mem 0).has_dialog_attached_ = true ∧
       ((DialogScope.ctor (some 0) (DialogScope.ctor (some 0) openWorld).2).2.mem
          0).has_dialog_attached_ = true ∧
       (((DialogScope.ctor (some 0) openWorld).1.dtor
          (DialogScope.ctor (some 0) (DialogScope.ctor (some 0) openWorld).2).2).mem
          0).has_dialog_attached_ = true ∧
       (((DialogScope.ctor (some 0) (DialogScope.ctor (some 0) openWorld).2).1.dtor
          ((DialogScope.ctor (some 0) openWorld).1.dtor
            (DialogScope.ctor (some 0) (DialogScope.ctor (some 0) openWorld).2).2)).mem
          0).has_dialog_attached_ = false) := by
  decide

/-- C1, amended.  For every window `p` and two guards on it with overlapping
lifetimes (`a` entered in `W`, `b` entered next), `has_dialog_attached_` is
true after the entry of `a` and after the entry of `b`; whichever guard exits
first, the flag is false after that first exit, while the other guard is
still alive, and it is false after the second exit. -/
theorem dialogScope_overlap_flag (W : World E) (p : Ptr) :
    ((DialogScope.ctor (some p) W).2.mem p).has_dialog_attached_ = true ∧
    ((DialogScope.ctor (some p) (DialogScope.ctor (some p) W).2).2.mem
        p).has_dialog_attached_ = true ∧
    (((DialogScope.ctor (some p) W).1.dtor
        (DialogScope.ctor (some p) (DialogScope.ctor (some p) W).2).2).mem
        p).has_dialog_attached_ = false ∧
    (((DialogScope.ctor (some p) (DialogScope.ctor (some p) W).2).1.dtor
        ((DialogScope.ctor (some p) W).1.dtor
          (DialogScope.ctor (some p) (DialogScope.ctor (some p) W).2).2)).mem
        p).has_dialog_attached_ = false ∧
    (((DialogScope.ctor (some p) (DialogScope.ctor (some p) W).2).1.dtor
        (DialogScope.ctor (some p) (DialogScope.ctor (some p) W).2).2).mem
        p).has_dialog_attached_ = false ∧
    (((DialogScope.ctor (some p) W).1.dtor
        ((DialogScope.ctor (some p) (DialogScope.ctor (some p) W).2).1.dtor
          (DialogScope.ctor (some p) (DialogScope.ctor (some p) W).2).2)).mem
        p).has_dialog_attached_ = false := by
  simp only [DialogScope.ctor_some, DialogScope.dtor_some, World.call_mem_same]
  simp [NativeWindow.set_has_dialog_attached]

/-- C8.  Constructing a guard on a non-null window `p` makes
`has_dialog_attached_` of `p` true whatever it was; and when the flag was
false before the entry, destroying the guard right after gives back the
program state from before the entry, every field of every window. -/
theorem dialogScope_enter_exit (W : World E) (p : Ptr) :
    ((DialogScope.ctor (some p) W).2.mem p).has_dialog_attached_ = true ∧
    ((W.mem p).has_dialog_attached_ = false →
      (DialogScope.ctor (some p) W).1.dtor (DialogScope.ctor (some p) W).2 = W) := by
  refine ⟨?_, fun h => ?_⟩
  · simp [DialogScope.ctor_some, World.call_mem_same, NativeWindow.set_has_dialog_attached]
  · apply World.eq_of_fields
    · simp only [DialogScope.ctor_some, DialogScope.dtor_some, World.call,
        Function.update_same, Function.update_idem]
      have hw : ((W.mem p).set_has_dialog_attached true).set_has_dialog_attached false
          = W.mem p := by
        cases hp : W.mem p
        rw [hp] at h
        simp only [NativeWindow.set_has_dialog_attached] at *
        simp_all
      rw [hw, Function.update_eq_self]
    · rfl

/-- C8 at a concrete input: window 3 of `openWorld` has no dialog attached,
and a guard entered and left on it gives `openWorld` back. -/
theorem dialogScope_enter_exit_witness :
    (openWorld.mem 3).has_dialog_attached_ = false ∧
    (DialogScope.ctor (some 3) openWorld).1.dtor (DialogScope.ctor (some 3) openWorld).2
      = openWorld :=
  ⟨rfl, (dialogScope_enter_exit openWorld 3).2 rfl⟩

/-- C9.  Take a non-empty sequence of guard constructions and destructions on
a non-null window `p`, started with any guards on `p` alive and any flag
value, that is a run of a program (`runScopes` gives a state).  If every
guard the sequence entered is no longer alive at its end, then
`has_dialog_attached_` of `p` is false at its end. -/
theorem dialogScope_balanced_sequence_clears (p : Ptr) (tr : List ScopeAct)
    (s t : Scopes E) (hne : tr ≠ [])
    (hlive : ∀ i g, s.live i = some g → g.window_ = some p)
    (hrun : runScopes p tr s = some t)
    (hexit : ∀ i, ScopeAct.enter i ∈ tr → t.live i = none) :
    (t.world.mem p).has_dialog_attached_ = false := by
  rcases List.eq_nil_or_concat tr with h | ⟨front, a, h⟩
  · exact absurd h hne
  · subst h
    rw [List.concat_eq_append] at hrun hexit
    rw [runScopes_append] at hrun
    cases hm : runScopes p front s with
    | none => rw [hm] at hrun; cases hrun
    | some m =>
      rw [hm] at hrun
      simp only [Option.bind, runScopes] at hrun
      have hmlive := runScopes_live p front s m hlive hm
      cases a with
      | enter j =>
        have hj := hexit j (by simp)
        simp only [ScopeAct.step] at hrun
        cases hl : m.live j with
        | some g0 => rw [hl] at hrun; cases hrun
        | none =>
          rw [hl] at hrun
          simp only [Option.bind, Option.some.injEq] at hrun
          subst hrun
          simp at hj
      | exit j =>
        simp only [ScopeAct.step] at hrun
        cases hl : m.live j with
        | none => rw [hl] at hrun; cases hrun
        | some g0 =>
          rw [hl] at hrun
          simp only [Option.bind, Option.some.injEq] at hrun
          subst hrun
          have hg := hmlive j g0 hl
          obtain ⟨w0⟩ := g0
          simp only at hg
          subst hg
          simp [DialogScope.dtor_some, World.call_mem_same,
            NativeWindow.set_has_dialog_attached]

/-- C9 at a concrete input: on window 0, with the flag true and no guard
alive at the start, guards 1 and 2 are entered and then leave in the order of
their entry; the run has a result and the flag is false in it. -/
theorem dialogScope_balanced_sequence_witness :
    ∃ t : Scopes listExt,
      runScopes 0 [ScopeAct.enter 1, ScopeAct.enter 2, ScopeAct.exit 1, ScopeAct.exit 2]
        { world := Op.exec (Op.set_has_dialog_attached 0 true) openWorld,
          live := fun _ => none } = some t ∧
      (t.world.mem 0).has_dialog_attached_ = false :=
  ⟨_, rfl,
    dialogScope_balanced_sequence_clears 0
      [ScopeAct.enter 1, ScopeAct.enter 2, ScopeAct.exit 1, ScopeAct.exit 2]
      { world := Op.exec (Op.set_has_dialog_attached 0 true) openWorld,
        live := fun _ => none } _
      (by decide) (fun _ _ h => by cases h) rfl
      (by
        intro i hi
        simp only [List.mem_cons, ScopeAct.enter.injEq, reduceCtorEq, List.mem_singleton,
          or_false, List.not_mem_nil] at hi
        rcases hi with h | h <;> subst h <;> rfl)⟩

/-- C10.  A guard constructed with a NULL window holds NULL, and neither its
constructor nor its destructor writes anything: the program state after the
entry, and after the exit, is the state from before, every window of it. -/
theorem dialogScope_null_inert (W : World E) :
    (DialogScope.ctor none W).1.window_ = none ∧
    (DialogScope.ctor none W).2 = W ∧
    (DialogScope.ctor none W).1.dtor (DialogScope.ctor none W).2 = W :=
  ⟨rfl, rfl, rfl⟩

/-! ## The closed flag, the observer list and the setter -/

/-- The closed events delivered to a list of observers name each observer as
often as the list does. -/
theorem count_closed_map (l : List Ptr) (obs : Ptr) :
    (l.map (fun o => (o, Event.closed))).count (obs, Event.closed) = l.count obs := by
  induction l with
  | nil => rfl
  | cons x rest ih =>
    by_cases h : x = obs
    · subst h; simp [ih]
    · have h2 : ¬ ((x, Event.closed) = (obs, Event.closed)) := by
        intro hc; exact h (congrArg Prod.fst hc)
      simp [List.count_cons, h, ih]

theorem delivered_of_log_eq (W V : World E) (h : V.log = W.log) : delivered W V = [] := by
  simp [delivered, h]

theorem NotifyWindowClosed_of_closed (p : Ptr) (W : World E)
    (h : (W.mem p).is_closed_ = true) : NotifyWindowClosed p W = W := by
  simp [NotifyWindowClosed, h]

theorem NotifyWindowClosed_closes (p : Ptr) (W : World E) :
    ((NotifyWindowClosed p W).mem p).is_closed_ = true := by
  by_cases h : (W.mem p).is_closed_ = true
  · rw [NotifyWindowClosed_of_closed p W h]; exact h
  · simp [NotifyWindowClosed, h]

/-- C2, as stated, fails.  Window 0 of `closedWorld` is closed and has no
dialog attached; `set_has_dialog_attached(true)` on it changes
`has_dialog_attached_`, so the window state does not stay as it was. -/
theorem closed_window_setter_counterexample :
    (closedWorld.mem 0).IsClosed = true ∧
    ((Op.exec (Op.set_has_dialog_attached 0 true) closedWorld).mem 0).has_dialog_attached_
      ≠ (closedWorld.mem 0).has_dialog_attached_ := by
  decide

/-- C2, amended.  On a closed window `p` every mutator the header defines
causes no observer callback, leaves `is_closed_` true and leaves every field
other than the one it writes as it was, in every window; and it takes effect
as on an open window: `set_has_dialog_attached(v)` stores `v` in
`has_dialog_attached_`, the guard's constructor stores true and its
destructor false, `AddObserver` / `RemoveObserver` store the updated list in
`observers_`. -/
theorem closed_window_mutators (W : World E) (p : Ptr)
    (hclosed : (W.mem p).IsClosed = true) :
    (∀ op : Op, op.isMutator = true →
      delivered W (op.exec W) = [] ∧
      ((op.exec W).mem p).IsClosed = true ∧
      ∀ q, ((op.exec W).mem q).has_frame_ = (W.mem q).has_frame_ ∧
        ((op.exec W).mem q).transparent_ = (W.mem q).transparent_ ∧
        ((op.exec W).mem q).enable_larger_than_screen_
          = (W.mem q).enable_larger_than_screen_ ∧
        ((op.exec W).mem q).node_integration_ = (W.mem q).node_integration_ ∧
        ((op.exec W).mem q).other_ = (W.mem q).other_) ∧
    (∀ v, (Op.exec (Op.set_has_dialog_attached p v) W).mem p
      = { W.mem p with has_dialog_attached_ := v }) ∧
    ((Op.exec (Op.DialogScope_ctor (some p)) W).mem p
      = { W.mem p with has_dialog_attached_ := true }) ∧
    ((Op.exec (Op.DialogScope_dtor { window_ := some p }) W).mem p
      = { W.mem p with has_dialog_attached_ := false }) ∧
    (∀ obs, (Op.exec (Op.AddObserver p obs) W).mem p
      = { W.mem p with observers_ := E.AddObserver (W.mem p).observers_ obs }) ∧
    (∀ obs, (Op.exec (Op.RemoveObserver p obs) W).mem p
      = { W.mem p with observers_ := E.RemoveObserver (W.mem p).observers_ obs }) := by
  refine ⟨fun op _ => ⟨delivered_of_log_eq W _ (Op.exec_log op W), ?_, fun q => ⟨?_, ?_, ?_, ?_, ?_⟩⟩,
    fun v => ?_, ?_, ?_, fun obs => ?_, fun obs => ?_⟩
  · have h := Op.exec_is_closed op W p
    simp only [NativeWindow.IsClosed] at hclosed ⊢
    rw [h, hclosed]
  · exact Op.exec_field (fun w => w.has_frame_) (fun _ _ => rfl) (fun _ _ => rfl)
      (fun _ _ => rfl) op W q
  · exact Op.exec_field (fun w => w.transparent_) (fun _ _ => rfl) (fun _ _ => rfl)
      (fun _ _ => rfl) op W q
  · exact Op.exec_field (fun w => w.enable_larger_than_screen_) (fun _ _ => rfl)
      (fun _ _ => rfl) (fun _ _ => rfl) op W q
  · exact Op.exec_field (fun w => w.node_integration_) (fun _ _ => rfl) (fun _ _ => rfl)
      (fun _ _ => rfl) op W q
  · exact Op.exec_field (fun w => w.other_) (fun _ _ => rfl) (fun _ _ => rfl)
      (fun _ _ => rfl) op W q
  · exact World.call_mem_same W p (fun w => w.set_has_dialog_attached v)
  · exact World.call_mem_same W p (fun w => w.set_has_dialog_attached true)
  · exact World.call_mem_same W p (fun w => w.set_has_dialog_attached false)
  · exact World.call_mem_same W p (fun w => w.AddObserver obs)
  · exact World.call_mem_same W p (fun w => w.RemoveObserver obs)

/-- C2, amended, at a concrete input: window 0 of `closedWorld` is closed, and
entering a guard on it delivers nothing and leaves it closed. -/
theorem closed_window_mutators_witness :
    (closedWorld.mem 0).IsClosed = true ∧
    delivered closedWorld (Op.exec (Op.DialogScope_ctor (some 0)) closedWorld) = [] ∧
    ((Op.exec (Op.DialogScope_ctor (some 0)) closedWorld).mem 0).IsClosed = true :=
  ⟨rfl,
    ((closed_window_mutators closedWorld 0 rfl).1 (Op.DialogScope_ctor (some 0)) rfl).1,
    ((closed_window_mutators closedWorld 0 rfl).1 (Op.DialogScope_ctor (some 0)) rfl).2.1⟩

/-- C3.  `is_closed_` is irreversible under the operations the header
defines: when `IsClosed()` returns true for window `p`, it returns true for
`p` after any sequence of `set_has_dialog_attached`, guard construction and
destruction, `AddObserver`, `RemoveObserver`, `IsClosed` and `has_frame`
calls, on `p` or on any other window. -/
theorem is_closed_irreversible (ops : List Op) (W : World E) (p : Ptr)
    (hclosed : (W.mem p).IsClosed = true) :
    ((Op.run ops W).mem p).IsClosed = true := by
  induction ops generalizing W with
  | nil => exact hclosed
  | cons op rest ih =>
    rw [Op.run_cons]
    apply ih
    simp only [NativeWindow.IsClosed] at hclosed ⊢
    rw [Op.exec_is_closed, hclosed]

/-- C3 at a concrete input: window 0 of `closedWorld` is closed and stays
closed through one call of each operation. -/
theorem is_closed_irreversible_witness :
    (closedWorld.mem 0).IsClosed = true ∧
    ((Op.run
        [Op.set_has_dialog_attached 0 true, Op.DialogScope_ctor (some 0),
          Op.DialogScope_dtor { window_ := some 0 }, Op.AddObserver 0 11,
          Op.RemoveObserver 0 7, Op.IsClosed 0, Op.has_frame 0]
        closedWorld).mem 0).IsClosed = true :=
  ⟨rfl, is_closed_irreversible _ closedWorld 0 rfl⟩

/-- C4.  Against the modelled `NotifyWindowClosed`: a second call right
after a first one changes nothing and delivers nothing; and when the window
was open before the first call, the two calls together deliver the closed
event to the registered observers in registration order, each observer as
often as it is registered. -/
theorem notifyWindowClosed_twice (W : World E) (p : Ptr) :
    NotifyWindowClosed p (NotifyWindowClosed p W) = NotifyWindowClosed p W ∧
    delivered (NotifyWindowClosed p W) (NotifyWindowClosed p (NotifyWindowClosed p W)) = [] ∧
    ((W.mem p).is_closed_ = false →
      ((NotifyWindowClosed p W).mem p).is_closed_ = true ∧
      delivered W (NotifyWindowClosed p (NotifyWindowClosed p W))
        = (E.registered (W.mem p).observers_).map (fun obs => (obs, Event.closed)) ∧
      ∀ obs, (delivered W (NotifyWindowClosed p (NotifyWindowClosed p W))).count
          (obs, Event.closed) = (E.registered (W.mem p).observers_).count obs) := by
  have hidem : NotifyWindowClosed p (NotifyWindowClosed p W) = NotifyWindowClosed p W :=
    NotifyWindowClosed_of_closed p _ (NotifyWindowClosed_closes p W)
  refine ⟨hidem, ?_, fun hopen => ?_⟩
  · rw [hidem]; simp [delivered]
  · have hd : delivered W (NotifyWindowClosed p W)
        = (E.registered (W.mem p).observers_).map (fun obs => (obs, Event.closed)) := by
      simp [delivered, NotifyWindowClosed, hopen]
    refine ⟨?_, ?_, fun obs => ?_⟩
    · simp [NotifyWindowClosed, hopen]
    · rw [hidem, hd]
    · rw [hidem, hd, count_closed_map]

/-- C4 at a concrete input: window 0 of `openWorld` is open and observed by 7
and 9; two calls deliver the closed event once to 7 and once to 9. -/
theorem notifyWindowClosed_twice_witness :
    (openWorld.mem 0).is_closed_ = false ∧
    delivered openWorld (NotifyWindowClosed 0 (NotifyWindowClosed 0 openWorld))
      = [(7, Event.closed), (9, Event.closed)] :=
  ⟨rfl, ((notifyWindowClosed_twice openWorld 0).2.2 rfl).2.1⟩

/-- C5.  With the members destroyed in the reverse of their declaration
order, `inspectable_web_contents_` comes strictly before `dialog_manager_`
in the teardown, and at every point of the teardown at which the inspector
surface is still alive the dialog manager is alive too. -/
theorem inspector_destroyed_before_dialog_manager :
    destructionOrder.indexOf Member.inspectable_web_contents_
      < destructionOrder.indexOf Member.dialog_manager_ ∧
    Member.dialog_manager_ ∈ destructionOrder ∧
    ∀ k, Member.inspectable_web_contents_ ∈ aliveAfter k →
      Member.dialog_manager_ ∈ aliveAfter k := by
  refine ⟨by decide, by decide, fun k hk => ?_⟩
  by_cases hle : k ≤ 2
  · interval_cases k <;> decide
  · exfalso
    have h3 : 3 ≤ k := by omega
    have hsub : aliveAfter k = (aliveAfter 3).drop (k - 3) := by
      simp only [aliveAfter, List.drop_drop]
      congr 1; omega
    rw [hsub] at hk
    have hmem := List.mem_of_mem_drop hk
    revert hmem
    decide

/-- C6.  An operation of the header other than `AddObserver` and
`RemoveObserver` leaves `observers_` of every window as it was; and
`AddObserver` / `RemoveObserver` store the updated list in `observers_` of
their window and leave every other field of every window, and the callback
log, as they were. -/
theorem observers_frame (op : Op) (W : World E) (q : Ptr) :
    (op.isObserverMutator = false →
      ((op.exec W).mem q).observers_ = (W.mem q).observers_) ∧
    (op.isObserverMutator = true →
      ((op.exec W).mem q).is_closed_ = (W.mem q).is_closed_ ∧
      ((op.exec W).mem q).has_dialog_attached_ = (W.mem q).has_dialog_attached_ ∧
      ((op.exec W).mem q).has_frame_ = (W.mem q).has_frame_ ∧
      ((op.exec W).mem q).transparent_ = (W.mem q).transparent_ ∧
      ((op.exec W).mem q).enable_larger_than_screen_
        = (W.mem q).enable_larger_than_screen_ ∧
      ((op.exec W).mem q).node_integration_ = (W.mem q).node_integration_ ∧
      ((op.exec W).mem q).other_ = (W.mem q).other_ ∧
      (op.exec W).log = W.log) ∧
    (∀ obs, ((Op.exec (Op.AddObserver q obs) W).mem q).observers_
      = E.AddObserver (W.mem q).observers_ obs) ∧
    (∀ obs, ((Op.exec (Op.RemoveObserver q obs) W).mem q).observers_
      = E.RemoveObserver (W.mem q).observers_ obs) := by
  refine ⟨fun h => ?_, fun h => ?_, fun obs => ?_, fun obs => ?_⟩
  · cases op with
    | set_has_dialog_attached p v =>
      exact World.call_field (fun w => w.observers_) W p q
        (fun w => w.set_has_dialog_attached v) (fun _ => rfl)
    | DialogScope_ctor window =>
      cases window with
      | none => rfl
      | some p =>
        exact World.call_field (fun w => w.observers_) W p q
          (fun w => w.set_has_dialog_attached true) (fun _ => rfl)
    | DialogScope_dtor guard =>
      obtain ⟨_ | p⟩ := guard
      · rfl
      · exact World.call_field (fun w => w.observers_) W p q
          (fun w => w.set_has_dialog_attached false) (fun _ => rfl)
    | AddObserver p obs => cases h
    | RemoveObserver p obs => cases h
    | IsClosed _ => rfl
    | has_frame _ => rfl
  · cases op with
    | AddObserver p obs =>
      exact ⟨World.call_field (fun w => w.is_closed_) W p q (fun w => w.AddObserver obs) (fun _ => rfl),
        World.call_field (fun w => w.has_dialog_attached_) W p q (fun w => w.AddObserver obs) (fun _ => rfl),
        World.call_field (fun w => w.has_frame_) W p q (fun w => w.AddObserver obs) (fun _ => rfl),
        World.call_field (fun w => w.transparent_) W p q (fun w => w.AddObserver obs) (fun _ => rfl),
        World.call_field (fun w => w.enable_larger_than_screen_) W p q (fun w => w.AddObserver obs) (fun _ => rfl),
        World.call_field (fun w => w.node_integration_) W p q (fun w => w.AddObserver obs) (fun _ => rfl),
        World.call_field (fun w => w.other_) W p q (fun w => w.AddObserver obs) (fun _ => rfl), rfl⟩
    | RemoveObserver p obs =>
      exact ⟨World.call_field (fun w => w.is_closed_) W p q (fun w => w.RemoveObserver obs) (fun _ => rfl),
        World.call_field (fun w => w.has_dialog_attached_) W p q (fun w => w.RemoveObserver obs) (fun _ => rfl),
        World.call_field (fun w => w.has_frame_) W p q (fun w => w.RemoveObserver obs) (fun _ => rfl),
        World.call_field (fun w => w.transparent_) W p q (fun w => w.RemoveObserver obs) (fun _ => rfl),
        World.call_field (fun w => w.enable_larger_than_screen_) W p q (fun w => w.RemoveObserver obs) (fun _ => rfl),
        World.call_field (fun w => w.node_integration_) W p q (fun w => w.RemoveObserver obs) (fun _ => rfl),
        World.call_field (fun w => w.other_) W p q (fun w => w.RemoveObserver obs) (fun _ => rfl), rfl⟩
    | set_has_dialog_attached _ _ => cases h
    | DialogScope_ctor _ => cases h
    | DialogScope_dtor _ => cases h
    | IsClosed _ => cases h
    | has_frame _ => cases h
  · rw [show Op.exec (Op.AddObserver q obs) W = W.call q (fun w => w.AddObserver obs) from rfl,
      World.call_mem_same]
    rfl
  · rw [show Op.exec (Op.RemoveObserver q obs) W
        = W.call q (fun w => w.RemoveObserver obs) from rfl, World.call_mem_same]
    rfl

/-- C6 at a concrete input: a guard entered on window 0 of `openWorld` leaves
its observers 7 and 9, and registering 11 on it leaves it open. -/
theorem observers_frame_witness :
    ((Op.exec (Op.DialogScope_ctor (some 0)) openWorld).mem 0).observers_ = [7, 9] ∧
    ((Op.exec (Op.AddObserver 0 11) openWorld).mem 0).is_closed_ = false :=
  ⟨(observers_frame (Op.DialogScope_ctor (some 0)) openWorld 0).1 rfl,
    ((observers_frame (Op.AddObserver 0 11) openWorld 0).2.1 rfl).1⟩

/-- C7.  When `has_dialog_attached_` already is `v`, `set_has_dialog_attached(v)`
gives back the window state it was called on; and for every state and `v`,
calling it twice gives the state that calling it once gives. -/
theorem set_has_dialog_attached_idempotent (s : NativeWindow E) (v : Bool) :
    (s.has_dialog_attached_ = v → s.set_has_dialog_attached v = s) ∧
    (s.set_has_dialog_attached v).set_has_dialog_attached v
      = s.set_has_dialog_attached v := by
  refine ⟨fun h => ?_, rfl⟩
  cases s
  simp only [NativeWindow.set_has_dialog_attached] at *
  simp_all

/-- C7 at a concrete input: an open window without a dialog, set to false. -/
theorem set_has_dialog_attached_idempotent_witness :
    (openWindow [7]).has_dialog_attached_ = false ∧
    (openWindow [7]).set_has_dialog_attached false = openWindow [7] :=
  ⟨rfl, (set_has_dialog_attached_idempotent (openWindow [7]) false).1 rfl⟩

end Claims

end atom
